import Mathlib

/-!
Shallow embedding of the CAD entity normalization and block-instancing engine
(the DWG parser's `transformPoint` / `convertEntity` core).

JavaScript numbers are modelled as real numbers (`ℝ`); optional fields are
modelled as `Option`; JS truthiness of a number (`0` is falsy) and of a string
(`""` is falsy) is modelled explicitly where the source relies on it.
A JS return value of `null | entity | entity[]` is modelled as
`Option (List CadEntity)`: `null ↦ none`, a single entity `e ↦ some [e]`,
an array `a ↦ some a` (call sites only flatten the result, so this is
observationally the same distinction the source makes).
-/

noncomputable section

open Real

/-- A fully populated 3-D point, as produced by `transformPoint`. -/
structure Point3D where
  x : ℝ
  y : ℝ
  z : ℝ

/-- A raw parser point `{ x, y, z? }`: `z` may be absent. -/
structure RawPt where
  x : ℝ
  y : ℝ
  z : Option ℝ := none

/-- A raw polyline/hatch vertex: every coordinate may be absent, and the
2D/3D polyline variants may carry the coordinates in a nested `point`. -/
structure RawVert where
  x : Option ℝ := none
  y : Option ℝ := none
  z : Option ℝ := none
  point : Option RawPt := none

/-- JS `a || d` for an optional number: both `undefined` and `0` are falsy,
so they yield the default `d`. -/
def jsOr (a : Option ℝ) (d : ℝ) : ℝ :=
  match a with
  | some v => if v = 0 then d else v
  | none => d

/-- JS `a || b` for optional strings: `undefined` and the empty string are
falsy. -/
def jsStrOr (a b : Option String) : Option String :=
  match a with
  | some s => if s = "" then b else some s
  | none => b

/-- JS `String.prototype.toUpperCase` (ASCII letters, which is all the source
ever feeds it). -/
def toUpperStr (s : String) : String := ⟨s.data.map Char.toUpper⟩

/-- `transformPoint(point, offset, rotation, scaleX, scaleY, scaleZ)`:
scale each axis, then (if the rotation is nonzero) rotate the x/y pair about
the origin, then translate.  Mirrors the source line for line. -/
def transformPoint (point : RawPt) (offset : Point3D)
    (rotation scaleX scaleY scaleZ : ℝ) : Point3D :=
  -- Apply scale
  let x := point.x * scaleX
  let y := point.y * scaleY
  let z := point.z.getD 0 * scaleZ
  -- Apply rotation (around origin)
  if rotation ≠ 0 then
    let cosr := Real.cos rotation
    let sinr := Real.sin rotation
    let newX := x * cosr - y * sinr
    let newY := x * sinr + y * cosr
    -- Apply translation
    { x := newX + offset.x, y := newY + offset.y, z := z + offset.z }
  else
    { x := x + offset.x, y := y + offset.y, z := z + offset.z }

/-- Modelled from the spec §4.1, word for word: "`apply(t, point) -> point'`:
scale each axis independently, then rotate the x/y pair by `t.rotation` about
the origin (z is unaffected by rotation), then add `t.offset`."  Used only to
compare the source's `transformPoint` against the spec's description. -/
def applySpec (point : RawPt) (offset : Point3D)
    (rotation scaleX scaleY scaleZ : ℝ) : Point3D :=
  { x := point.x * scaleX * Real.cos rotation - point.y * scaleY * Real.sin rotation + offset.x
    y := point.x * scaleX * Real.sin rotation + point.y * scaleY * Real.cos rotation + offset.y
    z := point.z.getD 0 * scaleZ + offset.z }

section MTextCleaning

/-- Pass 1 of the MTEXT clean-up, `.replace(/\\P/g, '\n')`: every literal
`\P` becomes a newline character. -/
def replacePgraph : List Char → List Char
  | '\\' :: 'P' :: rest => '\n' :: replacePgraph rest
  | c :: rest => c :: replacePgraph rest
  | [] => []

/-- Drop everything up to and including the first `';'`; `none` when there is
no `';'` (the regex `\\[A-Za-z][^;]*;` then has no match at this position). -/
def afterSemi : List Char → Option (List Char)
  | [] => none
  | ';' :: rest => some rest
  | _ :: rest => afterSemi rest

/-- Pass 2, `.replace(/\\[A-Za-z][^;]*;/g, '')`: a backslash followed by an
ASCII letter swallows everything through the next semicolon.  The fuel is the
input length, which always suffices (each step consumes at least one input
character and one unit of fuel). -/
def stripInlineFmtAux : ℕ → List Char → List Char
  | 0, l => l
  | _ + 1, [] => []
  | fuel + 1, '\\' :: c :: rest =>
    if c.isAlpha then
      match afterSemi rest with
      | some rest' => stripInlineFmtAux fuel rest'
      | none => '\\' :: stripInlineFmtAux fuel (c :: rest)
    else '\\' :: stripInlineFmtAux fuel (c :: rest)
  | fuel + 1, c :: rest => c :: stripInlineFmtAux fuel rest

def stripInlineFmt (l : List Char) : List Char := stripInlineFmtAux l.length l

/-- Drop everything up to and including the first closing brace. -/
def afterCloseBrace : List Char → Option (List Char)
  | [] => none
  | '\x7d' :: rest => some rest
  | _ :: rest => afterCloseBrace rest

/-- Pass 3, `.replace(/\{[^}]*\}/g, '')`: an opening brace swallows everything
through the next closing brace. -/
def stripBracesAux : ℕ → List Char → List Char
  | 0, l => l
  | _ + 1, [] => []
  | fuel + 1, '\x7b' :: rest =>
    match afterCloseBrace rest with
    | some rest' => stripBracesAux fuel rest'
    | none => '\x7b' :: stripBracesAux fuel rest
  | fuel + 1, c :: rest => c :: stripBracesAux fuel rest

def stripBraces (l : List Char) : List Char := stripBracesAux l.length l

/-- Pass 4, `.replace(/%%[cuod]/gi, '')`: `%%` followed by one of
`c,u,o,d` (either case) is removed. -/
def stripSpecialCodesAux : ℕ → List Char → List Char
  | 0, l => l
  | _ + 1, [] => []
  | fuel + 1, '%' :: '%' :: c :: rest =>
    if c = 'c' ∨ c = 'u' ∨ c = 'o' ∨ c = 'd' ∨
       c = 'C' ∨ c = 'U' ∨ c = 'O' ∨ c = 'D' then
      stripSpecialCodesAux fuel rest
    else '%' :: stripSpecialCodesAux fuel ('%' :: c :: rest)
  | fuel + 1, c :: rest => c :: stripSpecialCodesAux fuel rest

def stripSpecialCodes (l : List Char) : List Char := stripSpecialCodesAux l.length l

/-- The MTEXT formatting-code clean-up, applied in the source's order:
`\P` to newline, then inline `\X...;` directives, then brace groups, then
`%%`-codes. -/
def cleanMText (s : String) : String :=
  ⟨stripSpecialCodes (stripBraces (stripInlineFmt (replacePgraph s.data)))⟩

end MTextCleaning

/-- One typed edge of a hatch edge-boundary path (`edge.type === 1` is a line
segment, `edge.type === 2` an arc). -/
structure HatchEdge where
  type : Option ℤ := none
  start : Option RawPt := none
  endp : Option RawPt := none      -- source field name: `end`
  center : Option RawPt := none
  radius : Option ℝ := none
  startAngle : Option ℝ := none
  endAngle : Option ℝ := none

/-- One hatch boundary path: either a direct vertex list or a list of edges;
`isClosed` is only meaningful for the vertex form (`!== false` means closed). -/
structure HatchPath where
  vertices : List RawVert := []
  isClosed : Option Bool := none
  edges : List HatchEdge := []

/-- A raw parsed entity (`DwgEntity` as the converter probes it): a type tag
plus the union of all optional fields the converter reads. -/
structure RawEntity where
  type : String
  startPoint : Option RawPt := none
  endPoint : Option RawPt := none
  vertices : List RawVert := []
  flag : Option ℤ := none
  elevation : Option ℝ := none
  center : Option RawPt := none
  radius : Option ℝ := none
  startAngle : Option ℝ := none
  endAngle : Option ℝ := none
  majorAxisEndPoint : Option RawPt := none
  axisRatio : Option ℝ := none
  controlPoints : List RawVert := []
  fitPoints : List RawVert := []
  corner1 : Option RawPt := none
  corner2 : Option RawPt := none
  corner3 : Option RawPt := none
  corner4 : Option RawPt := none
  location : Option RawPt := none
  point : Option RawPt := none
  text : Option String := none
  textHeight : Option ℝ := none
  rotation : Option ℝ := none
  insertionPoint : Option RawPt := none
  boundaryPaths : List HatchPath := []
  color : Option ℤ := none
  name : Option String := none
  blockName : Option String := none
  xScale : Option ℝ := none
  yScale : Option ℝ := none
  zScale : Option ℝ := none
  defPoint : Option RawPt := none
  textMidPoint : Option RawPt := none
  basePoint : Option RawPt := none
  unitDirection : Option RawPt := none

/-- The canonical output entity (`CadEntity` in the source): a type tag plus
exactly the optional fields each conversion rule populates. -/
structure CadEntity where
  type : String
  vertices : Option (List Point3D) := none
  center : Option Point3D := none
  radius : Option ℝ := none
  startAngle : Option ℝ := none
  endAngle : Option ℝ := none
  shape : Option Bool := none
  majorAxisEndPoint : Option Point3D := none
  axisRatio : Option ℝ := none
  text : Option String := none
  textHeight : Option ℝ := none
  rotation : Option ℝ := none
  position : Option Point3D := none
  loops : Option (List (List Point3D)) := none
  color : Option ℤ := none

/-- The block-definition table: `Map<string, DwgEntity[]>.get`. -/
def BlockTable : Type := String → Option (List RawEntity)

/-- The caller-side accumulation loop
`if (converted) { if (Array.isArray(converted)) push(...converted) else push(converted) }`,
run over a list of conversion results. -/
def collectConverted : List (Option (List CadEntity)) → List CadEntity
  | [] => []
  | some l :: rest => l ++ collectConverted rest
  | none :: rest => collectConverted rest

/-- The points one hatch edge contributes to its loop: a line edge emits its
two endpoints; an arc edge (with a center) is sampled into `steps + 1 = 11`
points `t = startAngle + (endAngle - startAngle) * (i / steps)`, each placed at
the transformed center plus the scaled radius at angle `t + rotation`. -/
def hatchEdgePoints (edge : HatchEdge) (offset : Point3D)
    (rotation scaleX scaleY scaleZ : ℝ) : List Point3D :=
  if edge.type = some 1 then
    match edge.start, edge.endp with
    | some s, some e =>
      [transformPoint { x := s.x, y := s.y, z := some 0 } offset rotation scaleX scaleY scaleZ,
       transformPoint { x := e.x, y := e.y, z := some 0 } offset rotation scaleX scaleY scaleZ]
    | _, _ => []
  else if edge.type = some 2 then
    match edge.center with
    | some c =>
      let startAngle := edge.startAngle.getD 0
      let endAngle := edge.endAngle.getD (Real.pi * 2)
      let radius := edge.radius.getD 0 * max scaleX scaleY
      let center := transformPoint { x := c.x, y := c.y, z := some 0 } offset rotation scaleX scaleY scaleZ
      -- 10 points for arc  (steps = 10, i = 0..steps inclusive)
      (List.range 11).map (fun (i : ℕ) =>
        let t := startAngle + (endAngle - startAngle) * ((i : ℝ) / 10)
        { x := center.x + radius * Real.cos (t + rotation),
          y := center.y + radius * Real.sin (t + rotation),
          z := center.z })
    | none => []
  else []

/-- The loop one hatch boundary path contributes: the vertex form transforms
the vertex list pointwise and, unless the path is explicitly marked open
(`isClosed !== false` is closed), re-appends the first point when the last
transformed point is farther than `0.0001` from it in x or y; the edge form
concatenates the points of each edge in order. -/
def hatchPathLoop (path : HatchPath) (offset : Point3D)
    (rotation scaleX scaleY scaleZ : ℝ) : List Point3D :=
  if path.vertices.length > 0 then
    let loop := path.vertices.map (fun v =>
      transformPoint { x := v.x.getD 0, y := v.y.getD 0, z := some 0 } offset rotation scaleX scaleY scaleZ)
    -- Close loop if needed  (default closed)
    if path.isClosed ≠ some false ∧ loop.length > 0 then
      match loop with
      | [] => loop
      | first :: _ =>
        let last := loop.getLastD first
        if |first.x - last.x| > 0.0001 ∨ |first.y - last.y| > 0.0001 then
          loop ++ [first]
        else loop
    else loop
  else if path.edges.length > 0 then
    (path.edges.map (fun edge => hatchEdgePoints edge offset rotation scaleX scaleY scaleZ)).flatten
  else []

/-- `convertEntity(entity, offset, rotation, scaleX, scaleY, scaleZ, depth)`:
the per-entity canonicalization switch, with the recursion-depth guard and the
recursive block (INSERT) expansion.  Branches mirror the source switch in
order; unmatched cases fall through to `none`. -/
def convertEntity (blockDefinitions : BlockTable) (entity : RawEntity)
    (offset : Point3D) (rotation scaleX scaleY scaleZ : ℝ) (depth : ℕ) :
    Option (List CadEntity) :=
  if entity.type = "" then none          -- `!entity || !entity.type`
  else if h : depth > 10 then none       -- Prevent infinite recursion
  else
    let type := toUpperStr entity.type
    let e := entity
    if type = "LINE" then
      match e.startPoint, e.endPoint with
      | some startPoint, some endPoint =>
        some [{ type := "LINE",
                vertices := some [
                  transformPoint startPoint offset rotation scaleX scaleY scaleZ,
                  transformPoint endPoint offset rotation scaleX scaleY scaleZ] }]
      | _, _ => none
    else if type = "LWPOLYLINE" then
      if e.vertices.length > 0 then
        some [{ type := "POLYLINE",
                vertices := some (e.vertices.map (fun v =>
                  transformPoint { x := v.x.getD 0, y := v.y.getD 0, z := some (e.elevation.getD 0) }
                    offset rotation scaleX scaleY scaleZ)),
                shape := some (e.flag.getD 0 % 2 == 1) }]   -- (e.flag & 1) === 1
      else none
    else if type = "POLYLINE2D" then
      if e.vertices.length > 0 then
        some [{ type := "POLYLINE",
                vertices := some (e.vertices.map (fun v =>
                  transformPoint
                    { x := (v.point.map RawPt.x).getD (v.x.getD 0),
                      y := (v.point.map RawPt.y).getD (v.y.getD 0),
                      z := some ((v.point.bind RawPt.z).getD (e.elevation.getD 0)) }
                    offset rotation scaleX scaleY scaleZ)),
                shape := some (e.flag.getD 0 % 2 == 1) }]
      else none
    else if type = "POLYLINE3D" then
      if e.vertices.length > 0 then
        some [{ type := "POLYLINE",
                vertices := some (e.vertices.map (fun v =>
                  transformPoint
                    { x := (v.point.map RawPt.x).getD (v.x.getD 0),
                      y := (v.point.map RawPt.y).getD (v.y.getD 0),
                      z := some ((v.point.bind RawPt.z).getD (v.z.getD 0)) }
                    offset rotation scaleX scaleY scaleZ)),
                shape := some (e.flag.getD 0 % 2 == 1) }]
      else none
    else if type = "CIRCLE" then
      match e.center, e.radius with      -- `e.center && e.radius` (0 is falsy)
      | some center, some radius =>
        if radius = 0 then none
        else
          some [{ type := "CIRCLE",
                  center := some (transformPoint center offset rotation scaleX scaleY scaleZ),
                  radius := some (radius * max scaleX scaleY) }]
      | _, _ => none
    else if type = "ARC" then
      match e.center, e.radius with
      | some center, some radius =>
        if radius = 0 then none
        else
          some [{ type := "ARC",
                  center := some (transformPoint center offset rotation scaleX scaleY scaleZ),
                  radius := some (radius * max scaleX scaleY),
                  startAngle := some (jsOr e.startAngle 0 + rotation),
                  endAngle := some (jsOr e.endAngle (Real.pi * 2) + rotation) }]
      | _, _ => none
    else if type = "ELLIPSE" then
      match e.center, e.majorAxisEndPoint with
      | some center, some majorAxisEndPoint =>
        some [{ type := "ELLIPSE",
                center := some (transformPoint center offset rotation scaleX scaleY scaleZ),
                majorAxisEndPoint := some (transformPoint majorAxisEndPoint
                  { x := 0, y := 0, z := 0 } rotation scaleX scaleY scaleZ),
                axisRatio := some (jsOr e.axisRatio 1),
                startAngle := some (jsOr e.startAngle 0),
                endAngle := some (jsOr e.endAngle (Real.pi * 2)) }]
      | _, _ => none
    else if type = "SPLINE" then
      if e.controlPoints.length > 0 then
        some [{ type := "POLYLINE",
                vertices := some (e.controlPoints.map (fun p =>
                  transformPoint { x := p.x.getD 0, y := p.y.getD 0, z := some (p.z.getD 0) }
                    offset rotation scaleX scaleY scaleZ)),
                shape := some false }]
      else if e.fitPoints.length > 0 then
        some [{ type := "POLYLINE",
                vertices := some (e.fitPoints.map (fun p =>
                  transformPoint { x := p.x.getD 0, y := p.y.getD 0, z := some (p.z.getD 0) }
                    offset rotation scaleX scaleY scaleZ)),
                shape := some false }]
      else none
    else if type = "SOLID" ∨ type = "TRACE" then
      let corners :=
        (match e.corner1 with
         | some c => [transformPoint { x := c.x, y := c.y, z := some 0 } offset rotation scaleX scaleY scaleZ]
         | none => []) ++
        (match e.corner2 with
         | some c => [transformPoint { x := c.x, y := c.y, z := some 0 } offset rotation scaleX scaleY scaleZ]
         | none => []) ++
        (match e.corner3 with
         | some c => [transformPoint { x := c.x, y := c.y, z := some 0 } offset rotation scaleX scaleY scaleZ]
         | none => []) ++
        (match e.corner4 with
         | some c => [transformPoint { x := c.x, y := c.y, z := some 0 } offset rotation scaleX scaleY scaleZ]
         | none => [])
      if corners.length ≥ 3 then
        some [{ type := "POLYLINE", vertices := some corners, shape := some true }]
      else none
    else if type = "POINT" then
      match e.location.orElse (fun _ => e.point) with   -- e.location || e.point
      | some pt =>
        some [{ type := "POINT",
                vertices := some [transformPoint { x := pt.x, y := pt.y, z := some (jsOr pt.z 0) }
                  offset rotation scaleX scaleY scaleZ] }]
      | none => none
    else if type = "3DFACE" then
      let points :=
        (match e.corner1 with
         | some c => [transformPoint c offset rotation scaleX scaleY scaleZ]
         | none => []) ++
        (match e.corner2 with
         | some c => [transformPoint c offset rotation scaleX scaleY scaleZ]
         | none => []) ++
        (match e.corner3 with
         | some c => [transformPoint c offset rotation scaleX scaleY scaleZ]
         | none => []) ++
        (match e.corner4 with
         | some c => [transformPoint c offset rotation scaleX scaleY scaleZ]
         | none => [])
      if points.length ≥ 3 then
        some [{ type := "POLYLINE", vertices := some points, shape := some true }]
      else none
    else if type = "TEXT" then
      match e.text, e.startPoint with    -- `e.text && e.startPoint` ("" is falsy)
      | some text, some startPoint =>
        if text = "" then none
        else
          some [{ type := "TEXT",
                  text := some text,
                  position := some (transformPoint startPoint offset rotation scaleX scaleY scaleZ),
                  textHeight := some (jsOr e.textHeight 2.5 * max scaleX scaleY),
                  rotation := some (jsOr e.rotation 0 + rotation) }]
      | _, _ => none
    else if type = "MTEXT" then
      match e.text, e.insertionPoint with
      | some text, some insertionPoint =>
        if text = "" then none
        else
          some [{ type := "TEXT",
                  text := some (cleanMText text),
                  position := some (transformPoint insertionPoint offset rotation scaleX scaleY scaleZ),
                  textHeight := some (jsOr e.textHeight 2.5 * max scaleX scaleY),
                  rotation := some (jsOr e.rotation 0 + rotation) }]
      | _, _ => none
    else if type = "HATCH" then
      if e.boundaryPaths.length > 0 then
        let loops := (e.boundaryPaths.map (fun path =>
          hatchPathLoop path offset rotation scaleX scaleY scaleZ)).filter
            (fun loop => loop.length != 0)
        if loops.length > 0 then
          some [{ type := "HATCH", loops := some loops, color := some (e.color.getD 256) }]
        else none
      else none
    else if type = "INSERT" then
      match jsStrOr e.name e.blockName with   -- e.name || e.blockName
      | some blockName =>
        if blockName = "" then none           -- `if (blockName)`
        else
          let blockEntities :=                -- .get(blockName) || .get(blockName.toUpperCase())
            match blockDefinitions blockName with
            | some l => some l
            | none => blockDefinitions (toUpperStr blockName)
          match blockEntities with
          | some blockEntities =>
            if blockEntities.length > 0 then
              let insertPoint := e.insertionPoint.getD { x := 0, y := 0, z := some 0 }
              let insertRotation := jsOr e.rotation 0
              let insertScaleX := e.xScale.getD 1
              let insertScaleY := e.yScale.getD 1
              let insertScaleZ := e.zScale.getD 1
              -- Calculate combined transformation
              let newOffset := transformPoint insertPoint offset rotation scaleX scaleY scaleZ
              let newRotation := rotation + insertRotation
              let newScaleX := scaleX * insertScaleX
              let newScaleY := scaleY * insertScaleY
              let newScaleZ := scaleZ * insertScaleZ
              let result := collectConverted (blockEntities.map (fun blockEntity =>
                convertEntity blockDefinitions blockEntity
                  newOffset newRotation newScaleX newScaleY newScaleZ (depth + 1)))
              if result.length > 0 then some result else none
            else none
          | none => none
      | none => none
    else if type = "DIMENSION" ∨ type = "LEADER" ∨ type = "MLEADER" then
      match e.defPoint, e.textMidPoint with
      | some defPoint, some textMidPoint =>
        some [{ type := "LINE",
                vertices := some [
                  transformPoint defPoint offset rotation scaleX scaleY scaleZ,
                  transformPoint textMidPoint offset rotation scaleX scaleY scaleZ] }]
      | _, _ => none
    else if type = "RAY" ∨ type = "XLINE" then
      match e.basePoint, e.unitDirection with
      | some basePoint, some dir =>
        let start := transformPoint basePoint offset rotation scaleX scaleY scaleZ
        let len : ℝ := 10000               -- Arbitrary large length
        some [{ type := "LINE",
                vertices := some [start,
                  { x := start.x + dir.x * len, y := start.y + dir.y * len,
                    z := start.z + (jsOr dir.z 0) * len }] }]
      | _, _ => none
    else none
termination_by 11 - depth
decreasing_by simp_wf; omega

/-- The `parseDwg` top-level loop: every top-level entity is converted with the
identity transform at depth 0 and the results are flattened in order. -/
def parseEntities (blockDefinitions : BlockTable) (es : List RawEntity) : List CadEntity :=
  collectConverted (es.map (fun entity =>
    convertEntity blockDefinitions entity { x := 0, y := 0, z := 0 } 0 1 1 1 0))

/-- The positivity invariant the spec claims for emitted entities: any radius
or text-height field that is populated is strictly positive. -/
def posFields (ce : CadEntity) : Prop :=
  (∀ r, ce.radius = some r → 0 < r) ∧ (∀ h, ce.textHeight = some h → 0 < h)

/-- The block table of spec §8: a block `"COL"` holding one line from (0,0) to
(1,0). -/
def colLine : RawEntity :=
  { type := "LINE", startPoint := some { x := 0, y := 0 }, endPoint := some { x := 1, y := 0 } }

def colTable : BlockTable := fun n => if n = "COL" then some [colLine] else none

/-- Insert of `"COL"` at (10,10), rotation and scale defaulted. -/
def colInsert1 : RawEntity :=
  { type := "INSERT", name := some "COL", insertionPoint := some { x := 10, y := 10 } }

/-- Insert of `"COL"` at (10,10) with scale (2,2,1) and rotation π/2. -/
def colInsert2 : RawEntity :=
  { type := "INSERT", name := some "COL", insertionPoint := some { x := 10, y := 10 },
    rotation := some (Real.pi / 2), xScale := some 2, yScale := some 2, zScale := some 1 }

/-- A self-referential Insert: block "A" contains a line and an Insert of "A"
itself, the tightest possible block-reference cycle. -/
def insertA : RawEntity := { type := "INSERT", name := some "A" }

def tableA : BlockTable := fun n => if n = "A" then some [colLine, insertA] else none

/-- The canonical line each surviving level of the cycle emits. -/
def lineOut : CadEntity :=
  { type := "LINE", vertices := some [{ x := 0, y := 0, z := 0 }, { x := 1, y := 0, z := 0 }] }

/-- The hatch of spec §8: one vertex-boundary path of three non-closing points
(0,0), (1,0), (0,1). -/
def hatch3 : RawEntity :=
  { type := "HATCH",
    boundaryPaths := [{ vertices := [{ x := some 0, y := some 0 },
                                     { x := some 1, y := some 0 },
                                     { x := some 0, y := some 1 }] }] }

/-- An MTEXT entity carrying the claim's example text
`A\PB{Q}C%%dD` (a paragraph break, a brace group and a `%%d` code). -/
def mtextEnt : RawEntity :=
  { type := "MTEXT", text := some "A\\PB\x7bQ\x7dC%%dD",
    insertionPoint := some { x := 0, y := 0 } }

/-! ### Helper lemmas -/

/-- Branch-free closed form of `transformPoint` (the `rotation ≠ 0` test in the
source is an optimization: at `rotation = 0` the rotation is the identity). -/
theorem transformPoint_closed (point : RawPt) (offset : Point3D)
    (rotation scaleX scaleY scaleZ : ℝ) :
    transformPoint point offset rotation scaleX scaleY scaleZ =
      applySpec point offset rotation scaleX scaleY scaleZ := by
  unfold transformPoint applySpec
  by_cases h : rotation = 0
  · subst h
    rw [if_neg (by simp)]
    simp [Real.cos_zero, Real.sin_zero]
  · rw [if_pos h]

theorem convertEntity_depth_gt (tbl : BlockTable) (entity : RawEntity) (offset : Point3D)
    (rotation scaleX scaleY scaleZ : ℝ) (depth : ℕ) (h : 10 < depth) :
    convertEntity tbl entity offset rotation scaleX scaleY scaleZ depth = none := by
  unfold convertEntity
  by_cases h0 : entity.type = ""
  · rw [if_pos h0]
  · rw [if_neg h0, dif_pos h]

theorem toUpperStr_ne_empty {s t : String} (h : toUpperStr s = t) (ht : t ≠ "") : s ≠ "" := by
  intro h0
  apply ht
  rw [← h, h0]
  decide

theorem convertEntity_line (tbl : BlockTable) (e : RawEntity) (offset : Point3D)
    (rotation scaleX scaleY scaleZ : ℝ) (depth : ℕ)
    (hT : toUpperStr e.type = "LINE") (hd : depth ≤ 10) :
    convertEntity tbl e offset rotation scaleX scaleY scaleZ depth =
      match e.startPoint, e.endPoint with
      | some startPoint, some endPoint =>
        some [{ type := "LINE",
                vertices := some [
                  transformPoint startPoint offset rotation scaleX scaleY scaleZ,
                  transformPoint endPoint offset rotation scaleX scaleY scaleZ] }]
      | _, _ => none := by
  unfold convertEntity
  rw [if_neg (toUpperStr_ne_empty hT (by decide)), dif_neg (by omega)]
  simp only [hT]
  simp only [String.reduceEq, reduceIte, or_self, or_false, false_or]

theorem convertEntity_circle (tbl : BlockTable) (e : RawEntity) (offset : Point3D)
    (rotation scaleX scaleY scaleZ : ℝ) (depth : ℕ)
    (hT : toUpperStr e.type = "CIRCLE") (hd : depth ≤ 10) :
    convertEntity tbl e offset rotation scaleX scaleY scaleZ depth =
      match e.center, e.radius with
      | some center, some radius =>
        if radius = 0 then none
        else
          some [{ type := "CIRCLE",
                  center := some (transformPoint center offset rotation scaleX scaleY scaleZ),
                  radius := some (radius * max scaleX scaleY) }]
      | _, _ => none := by
  unfold convertEntity
  rw [if_neg (toUpperStr_ne_empty hT (by decide)), dif_neg (by omega)]
  simp only [hT]
  simp only [String.reduceEq, reduceIte, or_self, or_false, false_or]

theorem convertEntity_arc (tbl : BlockTable) (e : RawEntity) (offset : Point3D)
    (rotation scaleX scaleY scaleZ : ℝ) (depth : ℕ)
    (hT : toUpperStr e.type = "ARC") (hd : depth ≤ 10) :
    convertEntity tbl e offset rotation scaleX scaleY scaleZ depth =
      match e.center, e.radius with
      | some center, some radius =>
        if radius = 0 then none
        else
          some [{ type := "ARC",
                  center := some (transformPoint center offset rotation scaleX scaleY scaleZ),
                  radius := some (radius * max scaleX scaleY),
                  startAngle := some (jsOr e.startAngle 0 + rotation),
                  endAngle := some (jsOr e.endAngle (Real.pi * 2) + rotation) }]
      | _, _ => none := by
  unfold convertEntity
  rw [if_neg (toUpperStr_ne_empty hT (by decide)), dif_neg (by omega)]
  simp only [hT]
  simp only [String.reduceEq, reduceIte, or_self, or_false, false_or]

theorem convertEntity_text (tbl : BlockTable) (e : RawEntity) (offset : Point3D)
    (rotation scaleX scaleY scaleZ : ℝ) (depth : ℕ)
    (hT : toUpperStr e.type = "TEXT") (hd : depth ≤ 10) :
    convertEntity tbl e offset rotation scaleX scaleY scaleZ depth =
      match e.text, e.startPoint with
      | some text, some startPoint =>
        if text = "" then none
        else
          some [{ type := "TEXT",
                  text := some text,
                  position := some (transformPoint startPoint offset rotation scaleX scaleY scaleZ),
                  textHeight := some (jsOr e.textHeight 2.5 * max scaleX scaleY),
                  rotation := some (jsOr e.rotation 0 + rotation) }]
      | _, _ => none := by
  unfold convertEntity
  rw [if_neg (toUpperStr_ne_empty hT (by decide)), dif_neg (by omega)]
  simp only [hT]
  simp only [String.reduceEq, reduceIte, or_self, or_false, false_or]

theorem convertEntity_mtext (tbl : BlockTable) (e : RawEntity) (offset : Point3D)
    (rotation scaleX scaleY scaleZ : ℝ) (depth : ℕ)
    (hT : toUpperStr e.type = "MTEXT") (hd : depth ≤ 10) :
    convertEntity tbl e offset rotation scaleX scaleY scaleZ depth =
      match e.text, e.insertionPoint with
      | some text, some insertionPoint =>
        if text = "" then none
        else
          some [{ type := "TEXT",
                  text := some (cleanMText text),
                  position := some (transformPoint insertionPoint offset rotation scaleX scaleY scaleZ),
                  textHeight := some (jsOr e.textHeight 2.5 * max scaleX scaleY),
                  rotation := some (jsOr e.rotation 0 + rotation) }]
      | _, _ => none := by
  unfold convertEntity
  rw [if_neg (toUpperStr_ne_empty hT (by decide)), dif_neg (by omega)]
  simp only [hT]
  simp only [String.reduceEq, reduceIte, or_self, or_false, false_or]

theorem convertEntity_hatch (tbl : BlockTable) (e : RawEntity) (offset : Point3D)
    (rotation scaleX scaleY scaleZ : ℝ) (depth : ℕ)
    (hT : toUpperStr e.type = "HATCH") (hd : depth ≤ 10) :
    convertEntity tbl e offset rotation scaleX scaleY scaleZ depth =
      (if e.boundaryPaths.length > 0 then
        let loops := (e.boundaryPaths.map (fun path =>
          hatchPathLoop path offset rotation scaleX scaleY scaleZ)).filter
            (fun loop => loop.length != 0)
        if loops.length > 0 then
          some [{ type := "HATCH", loops := some loops, color := some (e.color.getD 256) }]
        else none
      else none) := by
  unfold convertEntity
  rw [if_neg (toUpperStr_ne_empty hT (by decide)), dif_neg (by omega)]
  simp only [hT]
  simp only [String.reduceEq, reduceIte, or_self, or_false, false_or]

theorem convertEntity_insert (tbl : BlockTable) (e : RawEntity) (offset : Point3D)
    (rotation scaleX scaleY scaleZ : ℝ) (depth : ℕ) (bn : String) (bes : List RawEntity)
    (hT : toUpperStr e.type = "INSERT") (hd : depth ≤ 10)
    (hn : jsStrOr e.name e.blockName = some bn) (hbn : bn ≠ "")
    (hlk : (match tbl bn with
            | some l => some l
            | none => tbl (toUpperStr bn)) = some bes)
    (hlen : bes.length > 0) :
    convertEntity tbl e offset rotation scaleX scaleY scaleZ depth =
      (if (collectConverted (bes.map (fun blockEntity =>
            convertEntity tbl blockEntity
              (transformPoint (e.insertionPoint.getD { x := 0, y := 0, z := some 0 })
                offset rotation scaleX scaleY scaleZ)
              (rotation + jsOr e.rotation 0)
              (scaleX * e.xScale.getD 1) (scaleY * e.yScale.getD 1) (scaleZ * e.zScale.getD 1)
              (depth + 1)))).length > 0
       then some (collectConverted (bes.map (fun blockEntity =>
            convertEntity tbl blockEntity
              (transformPoint (e.insertionPoint.getD { x := 0, y := 0, z := some 0 })
                offset rotation scaleX scaleY scaleZ)
              (rotation + jsOr e.rotation 0)
              (scaleX * e.xScale.getD 1) (scaleY * e.yScale.getD 1) (scaleZ * e.zScale.getD 1)
              (depth + 1))))
       else none) := by
  conv_lhs => rw [convertEntity.eq_def]
  rw [if_neg (toUpperStr_ne_empty hT (by decide)), dif_neg (by omega)]
  simp only [hT]
  simp only [String.reduceEq, reduceIte, or_self, or_false, false_or]
  simp only [hn, hlk, hbn, hlen, reduceIte, if_true, if_false, ite_true, ite_false]

theorem convertEntity_insert_dropped (tbl : BlockTable) (e : RawEntity) (offset : Point3D)
    (rotation scaleX scaleY scaleZ : ℝ) (depth : ℕ) (bn : String)
    (hT : toUpperStr e.type = "INSERT")
    (hn : jsStrOr e.name e.blockName = some bn) (_hbn : bn ≠ "")
    (hlk : (match tbl bn with
            | some l => some l
            | none => tbl (toUpperStr bn)) = none ∨
           (match tbl bn with
            | some l => some l
            | none => tbl (toUpperStr bn)) = some []) :
    convertEntity tbl e offset rotation scaleX scaleY scaleZ depth = none := by
  by_cases hdep : 10 < depth
  · exact convertEntity_depth_gt tbl e offset rotation scaleX scaleY scaleZ depth hdep
  · unfold convertEntity
    rw [if_neg (toUpperStr_ne_empty hT (by decide)), dif_neg hdep]
    simp only [hT]
    simp only [String.reduceEq, reduceIte, or_self, or_false, false_or]
    rcases hlk with hlk | hlk <;>
      simp [hn, hlk]

theorem collectConverted_append (a b : List (Option (List CadEntity))) :
    collectConverted (a ++ b) = collectConverted a ++ collectConverted b := by
  induction a with
  | nil => simp [collectConverted]
  | cons hd tl ih =>
    cases hd <;> simp [collectConverted, ih]

/-- Expanding the self-referential Insert at depth `k` (with `j = 10 - k`
levels of budget left) yields exactly one line per level whose members sit at
depth ≤ 10, and nothing once the budget is exhausted. -/
theorem cyc_expansion : ∀ j k : ℕ, k + j = 10 →
    convertEntity tableA insertA { x := 0, y := 0, z := 0 } 0 1 1 1 k =
      if j = 0 then none else some (List.replicate j lineOut) := by
  intro j
  induction j with
  | zero =>
    intro k hk
    rw [convertEntity_insert tableA insertA _ _ _ _ _ _ "A" [colLine, insertA]
        (by decide) (by omega) (by decide) (by decide) rfl (by decide)]
    simp only [List.map_cons, List.map_nil]
    rw [convertEntity_depth_gt tableA colLine _ _ _ _ _ _ (by omega),
        convertEntity_depth_gt tableA insertA _ _ _ _ _ _ (by omega)]
    simp [collectConverted]
  | succ n ih =>
    intro k hk
    rw [convertEntity_insert tableA insertA _ _ _ _ _ _ "A" [colLine, insertA]
        (by decide) (by omega) (by decide) (by decide) rfl (by decide)]
    simp only [List.map_cons, List.map_nil]
    have harg1 : transformPoint (Option.getD insertA.insertionPoint { x := 0, y := 0, z := some 0 })
        { x := 0, y := 0, z := 0 } 0 1 1 1 = { x := 0, y := 0, z := 0 } := by
      norm_num [insertA, transformPoint_closed, applySpec]
    have harg2 : (0 : ℝ) + jsOr insertA.rotation 0 = 0 := by simp [insertA, jsOr]
    have harg3 : (1 : ℝ) * Option.getD insertA.xScale 1 = 1 := by simp [insertA]
    have harg4 : (1 : ℝ) * Option.getD insertA.yScale 1 = 1 := by simp [insertA]
    have harg5 : (1 : ℝ) * Option.getD insertA.zScale 1 = 1 := by simp [insertA]
    rw [harg1, harg2, harg3, harg4, harg5]
    rw [convertEntity_line tableA colLine _ _ _ _ _ _ (by decide) (by omega),
        ih (k + 1) (by omega)]
    have hline : ({ type := "LINE",
                    vertices := some [
                      transformPoint { x := 0, y := 0 } { x := 0, y := 0, z := 0 } 0 1 1 1,
                      transformPoint { x := 1, y := 0 } { x := 0, y := 0, z := 0 } 0 1 1 1] } :
                  CadEntity) = lineOut := by
      norm_num [lineOut, transformPoint_closed, applySpec]
    simp only [colLine, hline]
    by_cases hn0 : n = 0
    · subst hn0
      simp [collectConverted]
    · simp [hn0, collectConverted, List.replicate_succ]

/-! ### Claims -/

/-- C3: `transformPoint` scales each axis independently, then rotates the x/y
pair by the rotation about the origin (z untouched by the rotation), then adds
the offset — exactly the spec's `apply`; and the identity transform (zero
offset, zero rotation, unit scales) is the identity on points, an absent z
being read as 0. -/
theorem transformPoint_spec_and_identity :
    (∀ (point : RawPt) (offset : Point3D) (rotation scaleX scaleY scaleZ : ℝ),
      transformPoint point offset rotation scaleX scaleY scaleZ =
        applySpec point offset rotation scaleX scaleY scaleZ) ∧
    (∀ point : RawPt,
      transformPoint point { x := 0, y := 0, z := 0 } 0 1 1 1 =
        { x := point.x, y := point.y, z := point.z.getD 0 }) := by
  constructor
  · exact transformPoint_closed
  · intro point
    rw [transformPoint_closed]
    unfold applySpec
    simp

/-- C10: a CIRCLE or ARC whose `radius` field is present but equal to `0` is
silently dropped — `e.center && e.radius` tests the number's truthiness, and
`0` is falsy — exactly as when the radius field is absent. -/
theorem circle_arc_zero_radius_dropped (tbl : BlockTable) (e : RawEntity)
    (offset : Point3D) (rotation scaleX scaleY scaleZ : ℝ) (depth : ℕ)
    (hT : toUpperStr e.type = "CIRCLE" ∨ toUpperStr e.type = "ARC")
    (hr : e.radius = some 0) :
    convertEntity tbl e offset rotation scaleX scaleY scaleZ depth = none ∧
    convertEntity tbl { e with radius := none } offset rotation scaleX scaleY scaleZ depth = none := by
  by_cases hdep : 10 < depth
  · exact ⟨convertEntity_depth_gt _ _ _ _ _ _ _ _ hdep,
           convertEntity_depth_gt _ _ _ _ _ _ _ _ hdep⟩
  · have hd : depth ≤ 10 := by omega
    rcases hT with hT | hT
    · refine ⟨?_, ?_⟩
      · rw [convertEntity_circle tbl e _ _ _ _ _ _ hT hd]
        simp only [hr]
        cases e.center <;> simp
      · rw [convertEntity_circle tbl { e with radius := none } _ _ _ _ _ _
            (show toUpperStr ({ e with radius := none } : RawEntity).type = "CIRCLE" from hT) hd]
        cases e.center <;> simp
    · refine ⟨?_, ?_⟩
      · rw [convertEntity_arc tbl e _ _ _ _ _ _ hT hd]
        simp only [hr]
        cases e.center <;> simp
      · rw [convertEntity_arc tbl { e with radius := none } _ _ _ _ _ _
            (show toUpperStr ({ e with radius := none } : RawEntity).type = "ARC" from hT) hd]
        cases e.center <;> simp

/-- Witness for C10: a concrete zero-radius circle is dropped, and dropping its
radius field entirely gives the same result. -/
theorem circle_arc_zero_radius_dropped_witness :
    convertEntity (fun _ => none)
      { type := "CIRCLE", center := some { x := 0, y := 0 }, radius := some 0 }
      { x := 0, y := 0, z := 0 } 0 1 1 1 0 = none ∧
    convertEntity (fun _ => none)
      { ({ type := "CIRCLE", center := some { x := 0, y := 0 },
           radius := some 0 } : RawEntity) with radius := none }
      { x := 0, y := 0, z := 0 } 0 1 1 1 0 = none :=
  circle_arc_zero_radius_dropped _ _ _ _ _ _ _ _ (Or.inl (by decide)) rfl

/-- C4 counterexample: a circle whose radius field is present but `0` does not
produce the output the claim describes (it is dropped instead). -/
theorem circle_zero_radius_counterexample :
    convertEntity (fun _ => none)
      { type := "CIRCLE", center := some { x := 0, y := 0 }, radius := some 0 }
      { x := 0, y := 0, z := 0 } 0 1 1 1 0 ≠
    some [{ type := "CIRCLE",
            center := some (transformPoint { x := 0, y := 0 } { x := 0, y := 0, z := 0 } 0 1 1 1),
            radius := some (0 * max 1 1) }] := by
  rw [convertEntity_circle _ _ _ _ _ _ _ _ (by decide) (by omega)]
  simp

/-- C4 (amended): for a CIRCLE or ARC with a center present and a *nonzero*
radius present, at depth ≤ 10 the output center is `transformPoint` of the raw
center, the output radius is the raw radius times `max scaleX scaleY`, and an
ARC's output angles are the raw angles — a falsy start defaulting to 0, a falsy
end defaulting to 2π — plus the accumulated rotation (not re-derived from
transformed points). -/
theorem circle_arc_output_amended (tbl : BlockTable) (e : RawEntity) (offset : Point3D)
    (rotation scaleX scaleY scaleZ : ℝ) (depth : ℕ) (c : RawPt) (r : ℝ)
    (hd : depth ≤ 10) (hc : e.center = some c) (hr : e.radius = some r) (hr0 : r ≠ 0) :
    (toUpperStr e.type = "CIRCLE" →
      convertEntity tbl e offset rotation scaleX scaleY scaleZ depth =
        some [{ type := "CIRCLE",
                center := some (transformPoint c offset rotation scaleX scaleY scaleZ),
                radius := some (r * max scaleX scaleY) }]) ∧
    (toUpperStr e.type = "ARC" →
      convertEntity tbl e offset rotation scaleX scaleY scaleZ depth =
        some [{ type := "ARC",
                center := some (transformPoint c offset rotation scaleX scaleY scaleZ),
                radius := some (r * max scaleX scaleY),
                startAngle := some (jsOr e.startAngle 0 + rotation),
                endAngle := some (jsOr e.endAngle (Real.pi * 2) + rotation) }]) := by
  constructor
  · intro hT
    rw [convertEntity_circle tbl e _ _ _ _ _ _ hT hd, hc, hr]
    simp [hr0]
  · intro hT
    rw [convertEntity_arc tbl e _ _ _ _ _ _ hT hd, hc, hr]
    simp [hr0]

/-- Witness for the amended C4: a concrete arc of radius 3. -/
theorem circle_arc_output_amended_witness :
    convertEntity (fun _ => none)
      { type := "ARC", center := some { x := 1, y := 2 }, radius := some 3,
        startAngle := some 0.5, endAngle := some 1.5 }
      { x := 0, y := 0, z := 0 } 0 1 1 1 0 =
      some [{ type := "ARC",
              center := some (transformPoint { x := 1, y := 2 } { x := 0, y := 0, z := 0 } 0 1 1 1),
              radius := some ((3:ℝ) * max 1 1),
              startAngle := some (jsOr (some 0.5) 0 + 0),
              endAngle := some (jsOr (some 1.5) (Real.pi * 2) + 0) }] :=
  (circle_arc_output_amended _ _ _ _ _ _ _ _ _ _ (by omega) rfl rfl (by norm_num)).2 (by decide)

/-- C5 counterexample: under the reflective scale (-1, -1) a raw circle of
radius 1 is emitted with radius `1 * max (-1) (-1) = -1`, which is negative. -/
theorem negative_radius_counterexample :
    convertEntity (fun _ => none)
      { type := "CIRCLE", center := some { x := 0, y := 0 }, radius := some 1 }
      { x := 0, y := 0, z := 0 } 0 (-1) (-1) 1 0 =
      some [{ type := "CIRCLE", center := some { x := 0, y := 0, z := 0 },
              radius := some (-1) }] ∧
    ¬ (0:ℝ) < -1 := by
  constructor
  · rw [convertEntity_circle _ _ _ _ _ _ _ _ (by decide) (by omega)]
    norm_num [transformPoint_closed, applySpec]
  · norm_num

/-- C5 (amended): at depth ≤ 10, when the inbound planar scale factor
`max scaleX scaleY` is positive, a CIRCLE or ARC whose raw radius is positive
and a TEXT or MTEXT whose (defaulted) raw height is positive emit only
entities with strictly positive radius/textHeight fields.  (The unqualified
claim is false under a doubly reflective scale or a negative raw value.) -/
theorem positive_radius_height_amended (tbl : BlockTable) (e : RawEntity)
    (offset : Point3D) (rotation scaleX scaleY scaleZ : ℝ) (depth : ℕ)
    (out : List CadEntity)
    (hd : depth ≤ 10) (hmax : 0 < max scaleX scaleY)
    (hty : ((toUpperStr e.type = "CIRCLE" ∨ toUpperStr e.type = "ARC") ∧
             (∀ r, e.radius = some r → 0 < r)) ∨
           ((toUpperStr e.type = "TEXT" ∨ toUpperStr e.type = "MTEXT") ∧
             0 < jsOr e.textHeight 2.5))
    (hout : convertEntity tbl e offset rotation scaleX scaleY scaleZ depth = some out) :
    ∀ ce ∈ out, posFields ce := by
  rcases hty with ⟨hT, hrad⟩ | ⟨hT, hh⟩
  · -- CIRCLE / ARC
    rcases hT with hT | hT
    · rw [convertEntity_circle tbl e _ _ _ _ _ _ hT hd] at hout
      rcases hce : e.center with _ | c
      · rw [hce] at hout; simp at hout
      rcases hre : e.radius with _ | r
      · rw [hce, hre] at hout; simp at hout
      simp only [hce, hre] at hout
      by_cases hr0 : r = 0
      · rw [if_pos hr0] at hout; simp at hout
      rw [if_neg hr0] at hout
      have hr' : 0 < r := hrad r hre
      have hout' : out =
          [{ type := "CIRCLE",
             center := some (transformPoint c offset rotation scaleX scaleY scaleZ),
             radius := some (r * max scaleX scaleY) }] := by
        injection hout with h
        exact h.symm
      subst hout'
      intro ce hmem
      rw [List.mem_singleton] at hmem
      subst hmem
      constructor
      · intro rr hrr
        injection hrr with hrr
        rw [← hrr]
        exact mul_pos hr' hmax
      · intro th hth
        simp at hth
    · rw [convertEntity_arc tbl e _ _ _ _ _ _ hT hd] at hout
      rcases hce : e.center with _ | c
      · rw [hce] at hout; simp at hout
      rcases hre : e.radius with _ | r
      · rw [hce, hre] at hout; simp at hout
      simp only [hce, hre] at hout
      by_cases hr0 : r = 0
      · rw [if_pos hr0] at hout; simp at hout
      rw [if_neg hr0] at hout
      have hr' : 0 < r := hrad r hre
      have hout' : out =
          [{ type := "ARC",
             center := some (transformPoint c offset rotation scaleX scaleY scaleZ),
             radius := some (r * max scaleX scaleY),
             startAngle := some (jsOr e.startAngle 0 + rotation),
             endAngle := some (jsOr e.endAngle (Real.pi * 2) + rotation) }] := by
        injection hout with h
        exact h.symm
      subst hout'
      intro ce hmem
      rw [List.mem_singleton] at hmem
      subst hmem
      constructor
      · intro rr hrr
        injection hrr with hrr
        rw [← hrr]
        exact mul_pos hr' hmax
      · intro th hth
        simp at hth
  · -- TEXT / MTEXT
    rcases hT with hT | hT
    · rw [convertEntity_text tbl e _ _ _ _ _ _ hT hd] at hout
      rcases hte : e.text with _ | t
      · rw [hte] at hout; simp at hout
      rcases hsp : e.startPoint with _ | sp
      · rw [hte, hsp] at hout; simp at hout
      simp only [hte, hsp] at hout
      by_cases ht0 : t = ""
      · rw [if_pos ht0] at hout; simp at hout
      rw [if_neg ht0] at hout
      have hout' : out =
          [{ type := "TEXT", text := some t,
             position := some (transformPoint sp offset rotation scaleX scaleY scaleZ),
             textHeight := some (jsOr e.textHeight 2.5 * max scaleX scaleY),
             rotation := some (jsOr e.rotation 0 + rotation) }] := by
        injection hout with h
        exact h.symm
      subst hout'
      intro ce hmem
      rw [List.mem_singleton] at hmem
      subst hmem
      constructor
      · intro rr hrr
        simp at hrr
      · intro th hth
        injection hth with hth
        rw [← hth]
        exact mul_pos hh hmax
    · rw [convertEntity_mtext tbl e _ _ _ _ _ _ hT hd] at hout
      rcases hte : e.text with _ | t
      · rw [hte] at hout; simp at hout
      rcases hsp : e.insertionPoint with _ | sp
      · rw [hte, hsp] at hout; simp at hout
      simp only [hte, hsp] at hout
      by_cases ht0 : t = ""
      · rw [if_pos ht0] at hout; simp at hout
      rw [if_neg ht0] at hout
      have hout' : out =
          [{ type := "TEXT", text := some (cleanMText t),
             position := some (transformPoint sp offset rotation scaleX scaleY scaleZ),
             textHeight := some (jsOr e.textHeight 2.5 * max scaleX scaleY),
             rotation := some (jsOr e.rotation 0 + rotation) }] := by
        injection hout with h
        exact h.symm
      subst hout'
      intro ce hmem
      rw [List.mem_singleton] at hmem
      subst hmem
      constructor
      · intro rr hrr
        simp at hrr
      · intro th hth
        injection hth with hth
        rw [← hth]
        exact mul_pos hh hmax

/-- Witness for the amended C5: the entity emitted for a concrete circle of
radius 2 under the identity transform has positive fields. -/
theorem positive_radius_height_amended_witness :
    posFields { type := "CIRCLE",
                center := some (transformPoint { x := 0, y := 0 }
                                 { x := 0, y := 0, z := 0 } 0 1 1 1),
                radius := some ((2:ℝ) * max 1 1) } :=
  positive_radius_height_amended (fun _ => none)
    { type := "CIRCLE", center := some { x := 0, y := 0 }, radius := some 2 }
    { x := 0, y := 0, z := 0 } 0 1 1 1 0
    [{ type := "CIRCLE",
       center := some (transformPoint { x := 0, y := 0 } { x := 0, y := 0, z := 0 } 0 1 1 1),
       radius := some ((2:ℝ) * max 1 1) }]
    (by omega) (by norm_num)
    (Or.inl ⟨Or.inl (by decide), by
      intro r hr
      injection hr with hr
      rw [← hr]
      norm_num⟩)
    (by
      rw [convertEntity_circle _ _ _ _ _ _ _ _ (by decide) (by omega)]
      norm_num)
    _ (List.mem_singleton_self _)

/-- C6: an INSERT whose referenced block name is found neither under the exact
name nor under its uppercased form, or whose block has no member entities,
yields nothing — no error is raised — and the surrounding document conversion
treats it as if it were absent, so sibling entities are unaffected. -/
theorem unresolved_insert_yields_nothing (tbl : BlockTable) (e : RawEntity)
    (offset : Point3D) (rotation scaleX scaleY scaleZ : ℝ) (depth : ℕ) (bn : String)
    (hT : toUpperStr e.type = "INSERT")
    (hn : jsStrOr e.name e.blockName = some bn) (hbn : bn ≠ "")
    (hlk : (tbl bn = none ∧ tbl (toUpperStr bn) = none) ∨
           tbl bn = some [] ∨
           (tbl bn = none ∧ tbl (toUpperStr bn) = some [])) :
    convertEntity tbl e offset rotation scaleX scaleY scaleZ depth = none ∧
    ∀ pre post : List RawEntity,
      parseEntities tbl (pre ++ e :: post) = parseEntities tbl pre ++ parseEntities tbl post := by
  have key : ∀ (o : Point3D) (rot sx sy sz : ℝ) (d : ℕ),
      convertEntity tbl e o rot sx sy sz d = none := by
    intro o rot sx sy sz d
    apply convertEntity_insert_dropped tbl e o rot sx sy sz d bn hT hn hbn
    rcases hlk with ⟨h1, h2⟩ | h1 | ⟨h1, h2⟩
    · exact Or.inl (by simp [h1, h2])
    · exact Or.inr (by simp [h1])
    · exact Or.inr (by simp [h1, h2])
  refine ⟨key _ _ _ _ _ _, ?_⟩
  intro pre post
  unfold parseEntities
  rw [List.map_append, collectConverted_append, List.map_cons, key]
  simp [collectConverted]

/-- Witness for C6: an INSERT of the unknown block "NOPE" against the empty
table yields nothing and leaves an (empty) sibling list conversion intact. -/
theorem unresolved_insert_yields_nothing_witness :
    convertEntity (fun _ => none) { type := "INSERT", name := some "NOPE" }
      { x := 0, y := 0, z := 0 } 0 1 1 1 0 = none ∧
    parseEntities (fun _ => none)
        ([] ++ ({ type := "INSERT", name := some "NOPE" } : RawEntity) :: []) =
      parseEntities (fun _ => none) [] ++ parseEntities (fun _ => none) [] :=
  ⟨(unresolved_insert_yields_nothing (fun _ => none) _ _ 0 1 1 1 0 "NOPE"
      (by decide) (by decide) (by decide) (Or.inl ⟨rfl, rfl⟩)).1,
   (unresolved_insert_yields_nothing (fun _ => none) _
      { x := 0, y := 0, z := 0 } 0 1 1 1 0 "NOPE"
      (by decide) (by decide) (by decide) (Or.inl ⟨rfl, rfl⟩)).2 [] []⟩

/-- C1: expanding the Insert of block "COL" (one line (0,0)–(1,0)) at
insertion point (10,10) with rotation 0 and unit scale yields exactly one line
(10,10)–(11,10); with scale (2,2,1) and rotation π/2 it yields exactly one
line (10,10)–(10,12) — scale, then rotation, then translation. -/
theorem insert_expansion_scale_rotate_translate :
    convertEntity colTable colInsert1 { x := 0, y := 0, z := 0 } 0 1 1 1 0 =
      some [{ type := "LINE",
              vertices := some [{ x := 10, y := 10, z := 0 }, { x := 11, y := 10, z := 0 }] }] ∧
    convertEntity colTable colInsert2 { x := 0, y := 0, z := 0 } 0 1 1 1 0 =
      some [{ type := "LINE",
              vertices := some [{ x := 10, y := 10, z := 0 }, { x := 10, y := 12, z := 0 }] }] := by
  have hpi2 : Real.pi / 2 ≠ 0 := ne_of_gt (by positivity)
  constructor
  · rw [convertEntity_insert colTable colInsert1 _ _ _ _ _ _ "COL" [colLine]
        (by decide) (by omega) (by decide) (by decide) rfl (by decide)]
    simp only [List.map_cons, List.map_nil]
    rw [convertEntity_line colTable colLine _ _ _ _ _ _ (by decide) (by omega)]
    simp only [colLine, colInsert1, Option.getD_some]
    simp only [collectConverted]
    norm_num [transformPoint_closed, applySpec, jsOr]
  · rw [convertEntity_insert colTable colInsert2 _ _ _ _ _ _ "COL" [colLine]
        (by decide) (by omega) (by decide) (by decide) rfl (by decide)]
    simp only [List.map_cons, List.map_nil]
    rw [convertEntity_line colTable colLine _ _ _ _ _ _ (by decide) (by omega)]
    simp only [colLine, colInsert2, Option.getD_some]
    simp only [collectConverted]
    norm_num [transformPoint_closed, applySpec, jsOr, hpi2,
      Real.cos_pi_div_two, Real.sin_pi_div_two]

/-- C2: `convertEntity` terminates for every block table — even a cyclic one —
and every entity: an entity reached at depth greater than 10 yields nothing
(its branch is dropped, with no error), while entities within the depth budget
convert normally, as the self-referential block "A" shows: its expansion
terminates with exactly one line per level at depth ≤ 10 (ten lines), deeper
levels being dropped. -/
theorem convertEntity_depth_guard_and_cycle :
    (∀ (tbl : BlockTable) (e : RawEntity) (offset : Point3D)
       (rotation scaleX scaleY scaleZ : ℝ) (depth : ℕ), 10 < depth →
      convertEntity tbl e offset rotation scaleX scaleY scaleZ depth = none) ∧
    convertEntity tableA insertA { x := 0, y := 0, z := 0 } 0 1 1 1 0 =
      some (List.replicate 10 lineOut) := by
  refine ⟨fun tbl e o r sx sy sz d hd => convertEntity_depth_gt tbl e o r sx sy sz d hd, ?_⟩
  simpa using cyc_expansion 10 0 (by omega)

/-- Witness for C2: a line entity handed to the converter at depth 11 yields
nothing. -/
theorem convertEntity_depth_guard_and_cycle_witness :
    convertEntity tableA colLine { x := 0, y := 0, z := 0 } 0 1 1 1 11 = none :=
  convertEntity_depth_guard_and_cycle.1 tableA colLine _ 0 1 1 1 11 (by omega)

/-- C7: a vertex-boundary hatch path not explicitly marked open whose last
transformed point differs from the first by more than 1e-4 in x or in y gets
the first point re-appended to close the loop; in particular the 3-point
non-closing path yields exactly one loop of 4 points whose 4th equals its
1st. -/
theorem hatch_vertex_loop_closing :
    (∀ (path : HatchPath) (offset : Point3D) (rotation scaleX scaleY scaleZ : ℝ)
       (p0 : Point3D) (tl : List Point3D),
      path.isClosed ≠ some false →
      path.vertices.map (fun v =>
        transformPoint { x := v.x.getD 0, y := v.y.getD 0, z := some 0 }
          offset rotation scaleX scaleY scaleZ) = p0 :: tl →
      (|p0.x - ((p0 :: tl).getLastD p0).x| > 0.0001 ∨
       |p0.y - ((p0 :: tl).getLastD p0).y| > 0.0001) →
      hatchPathLoop path offset rotation scaleX scaleY scaleZ = (p0 :: tl) ++ [p0]) ∧
    convertEntity (fun _ => none) hatch3 { x := 0, y := 0, z := 0 } 0 1 1 1 0 =
      some [{ type := "HATCH",
              loops := some [[{ x := 0, y := 0, z := 0 }, { x := 1, y := 0, z := 0 },
                              { x := 0, y := 1, z := 0 }, { x := 0, y := 0, z := 0 }]],
              color := some 256 }] := by
  constructor
  · intro path offset rotation scaleX scaleY scaleZ p0 tl hclosed hmap hfar
    have hlen : path.vertices.length > 0 := by
      have hl := congrArg List.length hmap
      simp only [List.length_map, List.length_cons] at hl
      omega
    unfold hatchPathLoop
    rw [if_pos hlen]
    simp only [hmap]
    rw [if_pos ⟨hclosed, by simp⟩]
    rw [if_pos hfar]
  · rw [convertEntity_hatch _ _ _ _ _ _ _ _ (by decide) (by omega)]
    have habs : |(0:ℝ) - 1| = 1 := by
      rw [show (0:ℝ) - 1 = -1 by norm_num, abs_neg, abs_one]
    have hloop : hatchPathLoop { vertices := [{ x := some 0, y := some 0 },
                                              { x := some 1, y := some 0 },
                                              { x := some 0, y := some 1 }] }
        { x := 0, y := 0, z := 0 } 0 1 1 1 =
        [{ x := 0, y := 0, z := 0 }, { x := 1, y := 0, z := 0 },
         { x := 0, y := 1, z := 0 }, { x := 0, y := 0, z := 0 }] := by
      unfold hatchPathLoop
      norm_num [transformPoint_closed, applySpec, List.getLastD, habs,
        show ((none : Option Bool) = some false) = False from by simp]
    simp only [hatch3]
    norm_num [hloop]

/-- Witness for C7: a two-point open-ended path (0,0)–(3,0) under the identity
transform gets its first point re-appended. -/
theorem hatch_vertex_loop_closing_witness :
    hatchPathLoop { vertices := [{ x := some 0, y := some 0 }, { x := some 3, y := some 0 }] }
      { x := 0, y := 0, z := 0 } 0 1 1 1 =
      [({ x := 0, y := 0, z := 0 } : Point3D), { x := 3, y := 0, z := 0 }] ++
        [{ x := 0, y := 0, z := 0 }] :=
  hatch_vertex_loop_closing.1 _ _ _ _ _ _ { x := 0, y := 0, z := 0 } [{ x := 3, y := 0, z := 0 }]
    (by decide)
    (by norm_num [transformPoint_closed, applySpec])
    (by
      left
      norm_num [List.getLastD])

/-- C8: an arc edge (type 2, center present) of a hatch edge-boundary path is
sampled into exactly 11 points; the i-th point (0 ≤ i ≤ 10) sits at the
transformed center plus the scaled radius `radius * max scaleX scaleY` at the
angle `startAngle + (endAngle - startAngle) * (i/10) + rotation`, the local
sample angles running evenly from the start angle to the end angle inclusive. -/
theorem hatch_arc_edge_sampling (edge : HatchEdge) (offset : Point3D)
    (rotation scaleX scaleY scaleZ : ℝ) (c : RawPt)
    (ht : edge.type = some 2) (hc : edge.center = some c) :
    (hatchEdgePoints edge offset rotation scaleX scaleY scaleZ).length = 11 ∧
    (∀ i : ℕ, i < 11 →
      (hatchEdgePoints edge offset rotation scaleX scaleY scaleZ)[i]? =
        some { x := (transformPoint { x := c.x, y := c.y, z := some 0 }
                       offset rotation scaleX scaleY scaleZ).x +
                    edge.radius.getD 0 * max scaleX scaleY *
                      Real.cos (edge.startAngle.getD 0 +
                        (edge.endAngle.getD (Real.pi * 2) - edge.startAngle.getD 0) *
                          ((i : ℝ) / 10) + rotation),
               y := (transformPoint { x := c.x, y := c.y, z := some 0 }
                       offset rotation scaleX scaleY scaleZ).y +
                    edge.radius.getD 0 * max scaleX scaleY *
                      Real.sin (edge.startAngle.getD 0 +
                        (edge.endAngle.getD (Real.pi * 2) - edge.startAngle.getD 0) *
                          ((i : ℝ) / 10) + rotation),
               z := (transformPoint { x := c.x, y := c.y, z := some 0 }
                       offset rotation scaleX scaleY scaleZ).z }) ∧
    (edge.startAngle.getD 0 +
        (edge.endAngle.getD (Real.pi * 2) - edge.startAngle.getD 0) * ((0 : ℝ) / 10) =
      edge.startAngle.getD 0) ∧
    (edge.startAngle.getD 0 +
        (edge.endAngle.getD (Real.pi * 2) - edge.startAngle.getD 0) * ((10 : ℝ) / 10) =
      edge.endAngle.getD (Real.pi * 2)) ∧
    (∀ i : ℕ, i < 10 →
      (edge.startAngle.getD 0 +
          (edge.endAngle.getD (Real.pi * 2) - edge.startAngle.getD 0) * (((i : ℝ) + 1) / 10)) -
        (edge.startAngle.getD 0 +
          (edge.endAngle.getD (Real.pi * 2) - edge.startAngle.getD 0) * ((i : ℝ) / 10)) =
      (edge.endAngle.getD (Real.pi * 2) - edge.startAngle.getD 0) / 10) := by
  have hpts : hatchEdgePoints edge offset rotation scaleX scaleY scaleZ =
      (List.range 11).map (fun i =>
        { x := (transformPoint { x := c.x, y := c.y, z := some 0 }
                  offset rotation scaleX scaleY scaleZ).x +
               edge.radius.getD 0 * max scaleX scaleY *
                 Real.cos (edge.startAngle.getD 0 +
                   (edge.endAngle.getD (Real.pi * 2) - edge.startAngle.getD 0) *
                     ((i : ℝ) / 10) + rotation),
          y := (transformPoint { x := c.x, y := c.y, z := some 0 }
                  offset rotation scaleX scaleY scaleZ).y +
               edge.radius.getD 0 * max scaleX scaleY *
                 Real.sin (edge.startAngle.getD 0 +
                   (edge.endAngle.getD (Real.pi * 2) - edge.startAngle.getD 0) *
                     ((i : ℝ) / 10) + rotation),
          z := (transformPoint { x := c.x, y := c.y, z := some 0 }
                  offset rotation scaleX scaleY scaleZ).z }) := by
    unfold hatchEdgePoints
    rw [ht, if_neg (by decide), if_pos rfl]
    simp only [hc]
  refine ⟨by rw [hpts]; simp, ?_, by norm_num, by field_simp, ?_⟩
  · intro i hi
    rw [hpts, List.getElem?_map, List.getElem?_range hi]
    simp
  · intro i hi
    field_simp
    ring

/-- Witness for C8: a concrete full-circle arc edge of radius 1 is sampled
into 11 points. -/
theorem hatch_arc_edge_sampling_witness :
    (hatchEdgePoints { type := some 2, center := some { x := 0, y := 0 }, radius := some 1 }
      { x := 0, y := 0, z := 0 } 0 1 1 1).length = 11 :=
  (hatch_arc_edge_sampling _ _ 0 1 1 1 { x := 0, y := 0 } rfl rfl).1

/-- C9 counterexample: the MTEXT clean-up does not leave only the literal text
content — the `\P` is replaced by a newline, not removed. -/
theorem mtext_strip_counterexample :
    cleanMText "A\\PB\x7bQ\x7dC%%dD" ≠ "ABCD" := by decide

/-- C9 (amended): MTEXT canonicalization removes brace-delimited groups
(with their contents), inline backslash-letter-semicolon directives and
`%%`-coded special characters, and replaces each paragraph break `\P` by a
newline character; the example input therefore emits the literal text with a
newline where the `\P` stood. -/
theorem mtext_strip_amended :
    cleanMText "A\\PB\x7bQ\x7dC%%dD" = "A\nBCD" ∧
    convertEntity (fun _ => none) mtextEnt { x := 0, y := 0, z := 0 } 0 1 1 1 0 =
      some [{ type := "TEXT", text := some "A\nBCD",
              position := some { x := 0, y := 0, z := 0 },
              textHeight := some 2.5, rotation := some 0 }] := by
  refine ⟨by decide, ?_⟩
  rw [convertEntity_mtext _ _ _ _ _ _ _ _ (by decide) (by omega)]
  simp only [mtextEnt]
  norm_num [transformPoint_closed, applySpec, jsOr,
    show cleanMText "A\\PB\x7bQ\x7dC%%dD" = "A\nBCD" from by decide]
  exact fun h => absurd h (by decide)

end

